import Mathlib

/-!
Verification of the manufacturing-management application's core logic:
the entity data model, the pricing resolver (`calculateOrderCost`,
`calculateProductCost`), the CRUD store contract implemented by the API
server, and the session / user-management handlers of the UI layer.

Decimal arithmetic of the source (JavaScript numbers) is modelled with `ℚ`;
entity identifiers and other text fields are `String`.
-/

/-- User role, from `role: 'admin' | 'manager' | 'employee'` in storage.ts. -/
inductive Role
  | admin
  | manager
  | employee
deriving DecidableEq, Repr

/-- `interface User` from storage.ts. -/
structure User where
  id : String
  email : String
  name : String
  surname : String
  phone : String
  role : Role
  password : String
deriving DecidableEq, Repr

/-- `interface Material` from storage.ts. -/
structure Material where
  id : String
  name : String
  cost : ℚ
  unit : String
  stock : ℚ
  createdAt : String
deriving DecidableEq, Repr

/-- One `{ materialId, quantity }` entry of a product's bill of materials. -/
structure ProductMaterial where
  materialId : String
  quantity : ℚ
deriving DecidableEq, Repr

/-- `interface Product` from storage.ts. -/
structure Product where
  id : String
  name : String
  materials : List ProductMaterial
  createdAt : String
deriving DecidableEq, Repr

/-- One `{ productId, quantity }` line of an order. -/
structure OrderProduct where
  productId : String
  quantity : ℚ
deriving DecidableEq, Repr

/-- One `{ materialId, quantity }` leftover entry of an order. -/
structure Leftover where
  materialId : String
  quantity : ℚ
deriving DecidableEq, Repr

/-- Order status, from `status: 'pending' | 'in-progress' | 'completed'`. -/
inductive OrderStatus
  | pending
  | inProgress
  | completed
deriving DecidableEq, Repr

/-- `interface Order` from storage.ts. -/
structure Order where
  id : String
  orderNumber : String
  products : List OrderProduct
  status : OrderStatus
  totalCost : ℚ
  leftovers : List Leftover
  createdAt : String
  completedAt : Option String
deriving DecidableEq, Repr

/-- `calculateOrderCost(order, products, materials)` from storage.ts: a fold
over the order's product lines; each line resolves its product by
`products.find(p => p.id === productId)`, and for a found product folds over
its materials, resolving each by `materials.find(m => m.id === materialId)`
and accumulating `material.cost * matQty * quantity`; missing products and
missing materials leave the accumulator untouched. -/
def calculateOrderCost (orderProducts : List OrderProduct)
    (products : List Product) (materials : List Material) : ℚ :=
  orderProducts.foldl (fun totalCost op =>
    match products.find? (fun p => p.id == op.productId) with
    | some product =>
        product.materials.foldl (fun acc pm =>
          match materials.find? (fun m => m.id == pm.materialId) with
          | some material => acc + material.cost * pm.quantity * op.quantity
          | none => acc) totalCost
    | none => totalCost) 0

/-- `calculateProductCost(productMaterials)` from ProductsPage: a reduce over
the bill of materials adding `material.cost * pm.quantity` for each entry
whose material is found in the page's `materials` list, and `0` otherwise. -/
def calculateProductCost (materials : List Material)
    (productMaterials : List ProductMaterial) : ℚ :=
  productMaterials.foldl (fun sum pm =>
    sum + (match materials.find? (fun m => m.id == pm.materialId) with
           | some material => material.cost * pm.quantity
           | none => 0)) 0

/-- The cost one order line contributes according to the specification's
words: the referenced product's cost (via `calculateProductCost`) times the
line quantity, `0` when the product is absent. Used to compare
`calculateOrderCost` against the spec's description. -/
def specLineCost (products : List Product) (materials : List Material)
    (op : OrderProduct) : ℚ :=
  (match products.find? (fun p => p.id == op.productId) with
   | some product => calculateProductCost materials product.materials
   | none => 0) * op.quantity

/-- A fold that only ever adds to its accumulator is the accumulator plus a
sum. -/
theorem foldl_add_eq (f : α → ℚ) :
    ∀ (l : List α) (init : ℚ),
      l.foldl (fun acc x => acc + f x) init = init + (l.map f).sum := by
  intro l
  induction l with
  | nil => intro init; simp
  | cons x xs ih =>
      intro init
      simp only [List.foldl_cons, List.map_cons, List.sum_cons]
      rw [ih]
      ring

/-- The inner material fold of `calculateOrderCost` in closed form. -/
theorem inner_fold_eq (materials : List Material) (q : ℚ)
    (pms : List ProductMaterial) (init : ℚ) :
    pms.foldl (fun acc pm =>
        match materials.find? (fun m => m.id == pm.materialId) with
        | some material => acc + material.cost * pm.quantity * q
        | none => acc) init
      = init + (pms.map (fun pm =>
          (match materials.find? (fun m => m.id == pm.materialId) with
           | some material => material.cost * pm.quantity
           | none => 0) * q)).sum := by
  have hfun : (fun (acc : ℚ) (pm : ProductMaterial) =>
      match materials.find? (fun m => m.id == pm.materialId) with
      | some material => acc + material.cost * pm.quantity * q
      | none => acc)
      = fun acc pm => acc +
          (match materials.find? (fun m => m.id == pm.materialId) with
           | some material => material.cost * pm.quantity
           | none => 0) * q := by
    funext acc pm
    cases materials.find? (fun m => m.id == pm.materialId) with
    | none => simp
    | some material => simp [mul_assoc, mul_comm]
  rw [hfun, foldl_add_eq]

/-- `calculateProductCost` in closed form. -/
theorem calculateProductCost_eq_sum (materials : List Material)
    (pms : List ProductMaterial) :
    calculateProductCost materials pms
      = (pms.map (fun pm =>
          match materials.find? (fun m => m.id == pm.materialId) with
          | some material => material.cost * pm.quantity
          | none => 0)).sum := by
  unfold calculateProductCost
  rw [foldl_add_eq]
  simp

/-- `calculateOrderCost` equals the sum of per-line spec costs. -/
theorem calculateOrderCost_eq_sum (ops : List OrderProduct)
    (products : List Product) (materials : List Material) :
    calculateOrderCost ops products materials
      = (ops.map (specLineCost products materials)).sum := by
  unfold calculateOrderCost
  have hfun : (fun (totalCost : ℚ) (op : OrderProduct) =>
      match products.find? (fun p => p.id == op.productId) with
      | some product =>
          product.materials.foldl (fun acc pm =>
            match materials.find? (fun m => m.id == pm.materialId) with
            | some material => acc + material.cost * pm.quantity * op.quantity
            | none => acc) totalCost
      | none => totalCost)
      = fun totalCost op => totalCost + specLineCost products materials op := by
    funext totalCost op
    cases hfind : products.find? (fun p => p.id == op.productId) with
    | none => simp [specLineCost, hfind]
    | some product =>
        simp only [specLineCost, hfind]
        rw [inner_fold_eq, calculateProductCost_eq_sum, List.sum_map_mul_right]
  rw [hfun, foldl_add_eq]
  simp

/-- C1: `calculateOrderCost` returns the sum over the order's
(productId, quantity) lines of the referenced product's cost times the line
quantity, where a product's cost is the sum over its (materialId, quantity)
pairs of the referenced material's cost times that quantity (0 when a
reference is dangling); in the concrete scenario, material m1 at cost 2.50
and product p1 with materials [(m1, 3)] give productCost 7.50, and an order
with products [(p1, 2)] costs 15.00. -/
theorem C1_orderCost_two_level_sum :
    (∀ (ops : List OrderProduct) (products : List Product)
        (materials : List Material),
      calculateOrderCost ops products materials
        = (ops.map (fun op =>
            (match products.find? (fun p => p.id == op.productId) with
             | some product =>
                 (product.materials.map (fun pm =>
                   match materials.find? (fun m => m.id == pm.materialId) with
                   | some material => material.cost * pm.quantity
                   | none => 0)).sum
             | none => 0) * op.quantity)).sum)
    ∧ calculateProductCost [⟨"m1", "Fabric", 2.5, "m", 0, "t0"⟩] [⟨"m1", 3⟩]
        = 7.5
    ∧ calculateOrderCost [⟨"p1", 2⟩] [⟨"p1", "Shirt", [⟨"m1", 3⟩], "t0"⟩]
        [⟨"m1", "Fabric", 2.5, "m", 0, "t0"⟩] = 15 := by
  refine ⟨?_,
    by norm_num [calculateProductCost, List.find?, List.foldl],
    by norm_num [calculateOrderCost, List.find?, List.foldl]⟩
  intro ops products materials
  rw [calculateOrderCost_eq_sum]
  have hline : specLineCost products materials = fun op =>
      (match products.find? (fun p => p.id == op.productId) with
       | some product =>
           (product.materials.map (fun pm =>
             match materials.find? (fun m => m.id == pm.materialId) with
             | some material => material.cost * pm.quantity
             | none => 0)).sum
       | none => 0) * op.quantity := by
    funext op
    rw [specLineCost]
    cases products.find? (fun p => p.id == op.productId) with
    | none => simp
    | some product => simp [calculateProductCost_eq_sum]
  rw [hline]

/-- C2: `calculateOrderCost` tolerates dangling references without error: an
order line whose productId is not found contributes 0 to the total (removing
it does not change the result), and inside a product's bill of materials an
entry whose materialId is not found contributes 0 to `calculateProductCost`. -/
theorem C2_dangling_references_contribute_zero :
    (∀ (products : List Product) (materials : List Material)
        (pre post : List OrderProduct) (pid : String) (q : ℚ),
      products.find? (fun p => p.id == pid) = none →
      calculateOrderCost (pre ++ ⟨pid, q⟩ :: post) products materials
        = calculateOrderCost (pre ++ post) products materials)
    ∧ (∀ (materials : List Material) (pre post : List ProductMaterial)
        (mid : String) (q : ℚ),
      materials.find? (fun m => m.id == mid) = none →
      calculateProductCost materials (pre ++ ⟨mid, q⟩ :: post)
        = calculateProductCost materials (pre ++ post)) := by
  constructor
  · intro products materials pre post pid q hfind
    rw [calculateOrderCost_eq_sum, calculateOrderCost_eq_sum]
    simp only [List.map_append, List.sum_append, List.map_cons, List.sum_cons]
    rw [specLineCost]
    simp [hfind]
  · intro materials pre post mid q hfind
    rw [calculateProductCost_eq_sum, calculateProductCost_eq_sum]
    simp only [List.map_append, List.sum_append, List.map_cons, List.sum_cons]
    simp [hfind]

/-- C2 witness: both parts instantiated at empty catalogs, where every
lookup fails and the dangling line indeed contributes nothing. -/
theorem C2_dangling_references_contribute_zero_witness :
    calculateOrderCost [⟨"p9", 4⟩] [] [] = calculateOrderCost [] [] []
    ∧ calculateProductCost [] [⟨"m9", 4⟩] = calculateProductCost [] [] :=
  ⟨C2_dangling_references_contribute_zero.1 [] [] [] [] "p9" 4 rfl,
   C2_dangling_references_contribute_zero.2 [] [] [] "m9" 4 rfl⟩

/-- C5: `calculateOrderCost` is linear in each line's quantity: doubling one
line's quantity, all else fixed, exactly doubles that line's contribution to
the total (the difference against the order without the line). -/
theorem C5_orderCost_linear_in_line_quantity
    (pre post : List OrderProduct) (pid : String) (q : ℚ)
    (products : List Product) (materials : List Material) :
    calculateOrderCost (pre ++ ⟨pid, 2 * q⟩ :: post) products materials
      - calculateOrderCost (pre ++ post) products materials
    = 2 * (calculateOrderCost (pre ++ ⟨pid, q⟩ :: post) products materials
      - calculateOrderCost (pre ++ post) products materials) := by
  rw [calculateOrderCost_eq_sum, calculateOrderCost_eq_sum,
    calculateOrderCost_eq_sum]
  simp only [List.map_append, List.sum_append, List.map_cons, List.sum_cons]
  rw [specLineCost, specLineCost]
  cases products.find? (fun p => p.id == (⟨pid, q⟩ : OrderProduct).productId) with
  | none => ring
  | some product => ring

/-- Error taxonomy of the application: `NotFound` (404 on a missing
mutation/deletion target), `DuplicateKey` (INSERT hitting the `id` primary
key or unique `email` column), `Forbidden` (the UI self-deletion guard),
`ValidationError` (form validation), `BackendUnavailable`. -/
inductive AppError
  | NotFound
  | DuplicateKey
  | Forbidden
  | ValidationError
  | BackendUnavailable
deriving DecidableEq, Repr

/-- `POST /api/users` from the API server: an `INSERT INTO users` against the
schema `id VARCHAR(36) PRIMARY KEY, email VARCHAR(255) UNIQUE NOT NULL, ...`.
The insert fails (and leaves the table unchanged) when the new row collides
with an existing `id` or `email`; otherwise the row is appended. The result
pairs the table contents after the call with the error, if any. -/
def createUser (store : List User) (u : User) : List User × Option AppError :=
  if store.any (fun x => x.id == u.id || x.email == u.email) then
    (store, some .DuplicateKey)
  else (store ++ [u], none)

/-- `DELETE FROM <table> WHERE id = :id` followed by the server's
`affectedRows === 0` check: all rows whose key equals `id` are removed; when
no row matched, the response is 404 Not Found and the table is unchanged.
Shared by the four `DELETE /api/...` endpoints. -/
def deleteById (key : α → String) (store : List α) (id : String) :
    List α × Option AppError :=
  if store.any (fun e => key e == id) then
    (store.filter (fun e => key e != id), none)
  else (store, some .NotFound)

/-- `DELETE /api/users/:id` from the API server. -/
def deleteUser (store : List User) (id : String) : List User × Option AppError :=
  deleteById User.id store id

/-- `DELETE /api/materials/:id` from the API server. -/
def deleteMaterial (store : List Material) (id : String) :
    List Material × Option AppError :=
  deleteById Material.id store id

/-- `DELETE /api/products/:id` from the API server. -/
def deleteProduct (store : List Product) (id : String) :
    List Product × Option AppError :=
  deleteById Product.id store id

/-- `DELETE /api/orders/:id` from the API server. -/
def deleteOrder (store : List Order) (id : String) :
    List Order × Option AppError :=
  deleteById Order.id store id

/-- `UsersPage.handleDelete`: refuses with the "Cannot delete your own
account" notification when the target id equals the current session user's
id (`id === currentUser?.id`), leaving the list untouched; otherwise calls
`deleteUser` against the backend and on success filters the local list. -/
def usersHandleDelete (currentUser : Option User) (users : List User)
    (id : String) : List User × Option AppError :=
  if currentUser.any (fun cu => id == cu.id) then (users, some .Forbidden)
  else
    match (deleteUser users id).2 with
    | none => (users.filter (fun u => u.id != id), none)
    | some e => (users, some e)

/-- If no element of the store has the key, `deleteById` reports `NotFound`
and returns the store unchanged. -/
theorem deleteById_not_found (key : α → String) (store : List α) (id : String)
    (h : ∀ e ∈ store, key e ≠ id) :
    deleteById key store id = (store, some .NotFound) := by
  have hany : store.any (fun e => key e == id) = false := by
    simp only [List.any_eq_false, beq_iff_eq]
    exact h
  simp [deleteById, hany]

/-- C3: creating a user whose email already exists in the store fails with
`DuplicateKey`, and the store is unchanged by the failed creation: the list
of users afterwards is (and in particular has the same length as) the list
before. -/
theorem C3_duplicate_email_create_fails (store : List User) (u x : User)
    (hx : x ∈ store) (hemail : x.email = u.email) :
    createUser store u = (store, some .DuplicateKey)
    ∧ (createUser store u).1 = store
    ∧ (createUser store u).1.length = store.length := by
  have hany : store.any (fun y => y.id == u.id || y.email == u.email) = true := by
    rw [List.any_eq_true]
    exact ⟨x, hx, by simp [hemail]⟩
  refine ⟨by simp [createUser, hany], ?_, ?_⟩ <;> simp [createUser, hany]

/-- C3 witness: inserting a second user with the admin's email fails with
`DuplicateKey` and leaves the one-element store as it was. -/
theorem C3_duplicate_email_create_fails_witness :
    createUser [⟨"u1", "admin@company.com", "Admin", "User", "+370", .admin,
        "admin123"⟩]
      ⟨"u2", "admin@company.com", "Eve", "New", "+371", .employee, "pw1234"⟩
    = ([⟨"u1", "admin@company.com", "Admin", "User", "+370", .admin,
        "admin123"⟩], some .DuplicateKey) :=
  (C3_duplicate_email_create_fails _ _
    ⟨"u1", "admin@company.com", "Admin", "User", "+370", .admin, "admin123"⟩
    (List.Mem.head _) rfl).1

/-- C6: for the authenticated session user U, the UI delete handler refuses
`delete(U.id)` with `Forbidden` regardless of U's role, and the user list is
left unchanged. -/
theorem C6_self_delete_forbidden (u : User) (users : List User) (id : String)
    (hid : id = u.id) :
    usersHandleDelete (some u) users id = (users, some .Forbidden) := by
  simp [usersHandleDelete, hid]

/-- C6 witness: an admin attempting to delete their own id is refused and
the list survives intact. -/
theorem C6_self_delete_forbidden_witness :
    usersHandleDelete
      (some ⟨"u1", "admin@company.com", "Admin", "User", "+370", .admin,
        "admin123"⟩)
      [⟨"u1", "admin@company.com", "Admin", "User", "+370", .admin,
        "admin123"⟩]
      "u1"
    = ([⟨"u1", "admin@company.com", "Admin", "User", "+370", .admin,
        "admin123"⟩], some .Forbidden) :=
  C6_self_delete_forbidden _ _ _ rfl

/-- C7: for every entity type, deleting an id not present in the store fails
with `NotFound` and leaves the stored collection identical. -/
theorem C7_delete_missing_id_not_found :
    (∀ (store : List User) (id : String), (∀ e ∈ store, e.id ≠ id) →
      deleteUser store id = (store, some .NotFound))
    ∧ (∀ (store : List Material) (id : String), (∀ e ∈ store, e.id ≠ id) →
      deleteMaterial store id = (store, some .NotFound))
    ∧ (∀ (store : List Product) (id : String), (∀ e ∈ store, e.id ≠ id) →
      deleteProduct store id = (store, some .NotFound))
    ∧ (∀ (store : List Order) (id : String), (∀ e ∈ store, e.id ≠ id) →
      deleteOrder store id = (store, some .NotFound)) :=
  ⟨fun store id h => deleteById_not_found _ store id h,
   fun store id h => deleteById_not_found _ store id h,
   fun store id h => deleteById_not_found _ store id h,
   fun store id h => deleteById_not_found _ store id h⟩

/-- C7 witness: deleting from one-element stores with a non-matching id
fails with `NotFound` for all four entity types. -/
theorem C7_delete_missing_id_not_found_witness :
    deleteUser [⟨"u1", "a@b", "A", "B", "+1", .admin, "pw"⟩] "u2"
      = ([⟨"u1", "a@b", "A", "B", "+1", .admin, "pw"⟩], some .NotFound)
    ∧ deleteMaterial [⟨"m1", "Fabric", 2.5, "m", 10, "t"⟩] "m2"
      = ([⟨"m1", "Fabric", 2.5, "m", 10, "t"⟩], some .NotFound)
    ∧ deleteProduct [⟨"p1", "Shirt", [], "t"⟩] "p2"
      = ([⟨"p1", "Shirt", [], "t"⟩], some .NotFound)
    ∧ deleteOrder [⟨"o1", "N1", [], .pending, 0, [], "t", none⟩] "o2"
      = ([⟨"o1", "N1", [], .pending, 0, [], "t", none⟩], some .NotFound) :=
  ⟨C7_delete_missing_id_not_found.1 _ _ (by simp),
   C7_delete_missing_id_not_found.2.1 _ _ (by simp),
   C7_delete_missing_id_not_found.2.2.1 _ _ (by simp),
   C7_delete_missing_id_not_found.2.2.2 _ _ (by simp)⟩

/-- The credential lookup of `LoginPage.handleLogin`:
`users.find(u => u.email === email && u.password === password)` — a
case-sensitive plaintext comparison of both fields. -/
def findCredentialUser (users : List User) (email password : String) :
    Option User :=
  users.find? (fun u => u.email == email && u.password == password)

/-- `LoginPage.handleLogin`'s effect on the session: when the credential
lookup finds a user, `setCurrentUser(user)` stores it; otherwise only an
error notification is shown and the session holder is not written. -/
def handleLogin (users : List User) (email password : String)
    (session : Option User) : Option User :=
  match findCredentialUser users email password with
  | some user => some user
  | none => session

/-- `Layout.handleLogout`: `setCurrentUser(null)` removes the stored session
user. -/
def handleLogout (_session : Option User) : Option User := none

/-- The session at first startup: `getCurrentUser` reads
`localStorage.getItem('manufacturing_current_user')`, which is absent before
any login, so the current user is `null`. -/
def initialCurrentUser : Option User := none

/-- `UsersPage` form state: email, name, surname, phone, role, password. -/
structure UserFormData where
  email : String
  name : String
  surname : String
  phone : String
  role : Role
  password : String
deriving DecidableEq, Repr

/-- `UsersPage.handleSubmit`: rejects an email without `'@'`; rejects a
password shorter than 6 characters only when creating
(`formData.password.length < 6 && !editingUser`); when editing, builds
`{ ...editingUser, ...formData, password: formData.password ||
editingUser.password }` (an empty password field keeps the old password);
when creating, builds a fresh record with the form's password. -/
def usersHandleSubmit (editingUser : Option User) (newId : String)
    (form : UserFormData) : Except AppError User :=
  if !(form.email.data.any (fun c => c == '@')) then .error .ValidationError
  else if form.password.length < 6 && editingUser.isNone then
    .error .ValidationError
  else .ok (match editingUser with
    | some eu =>
        { id := eu.id, email := form.email, name := form.name,
          surname := form.surname, phone := form.phone, role := form.role,
          password := if form.password == "" then eu.password
                      else form.password }
    | none =>
        { id := newId, email := form.email, name := form.name,
          surname := form.surname, phone := form.phone, role := form.role,
          password := form.password })

/-- C8: login stores a session user if and only if some stored user's email
and password are both string-equal to the submitted credentials; the stored
session user is such a matching stored record; when no user matches, the
session holder is not written; the session is absent at startup and cleared
on logout. -/
theorem C8_login_credential_match :
    (∀ (users : List User) (email password : String),
      (∃ u ∈ users, u.email = email ∧ u.password = password)
        ↔ ∃ u, findCredentialUser users email password = some u
            ∧ u ∈ users ∧ u.email = email ∧ u.password = password)
    ∧ (∀ (users : List User) (email password : String) (session : Option User)
        (u : User), findCredentialUser users email password = some u →
      handleLogin users email password session = some u)
    ∧ (∀ (users : List User) (email password : String) (session : Option User),
      findCredentialUser users email password = none →
      handleLogin users email password session = session)
    ∧ initialCurrentUser = none
    ∧ (∀ session : Option User, handleLogout session = none) := by
  refine ⟨?_, ?_, ?_, rfl, fun _ => rfl⟩
  · intro users email password
    constructor
    · intro hex
      have hsome : (users.find? (fun u =>
          u.email == email && u.password == password)).isSome := by
        rw [List.find?_isSome]
        obtain ⟨u, hu, he, hp⟩ := hex
        exact ⟨u, hu, by simp [he, hp]⟩
      obtain ⟨u, hu⟩ := Option.isSome_iff_exists.mp hsome
      have hmem := List.mem_of_find?_eq_some hu
      have hpred := List.find?_some hu
      simp only [Bool.and_eq_true, beq_iff_eq] at hpred
      exact ⟨u, hu, hmem, hpred.1, hpred.2⟩
    · rintro ⟨u, _, hu, he, hp⟩
      exact ⟨u, hu, he, hp⟩
  · intro users email password session u hfind
    simp [handleLogin, hfind]
  · intro users email password session hfind
    simp [handleLogin, hfind]

/-- C8 witness: the seeded admin's credentials log in and are stored; with
no users nothing matches and the session is untouched; startup and logout
are the absent session. -/
theorem C8_login_credential_match_witness :
    ((∃ u ∈ [(⟨"u1", "admin@company.com", "Admin", "User", "+370", .admin,
        "admin123"⟩ : User)], u.email = "admin@company.com"
          ∧ u.password = "admin123")
      ↔ ∃ u, findCredentialUser [⟨"u1", "admin@company.com", "Admin", "User",
          "+370", .admin, "admin123"⟩] "admin@company.com" "admin123" = some u
          ∧ u ∈ [(⟨"u1", "admin@company.com", "Admin", "User", "+370", .admin,
            "admin123"⟩ : User)] ∧ u.email = "admin@company.com"
          ∧ u.password = "admin123")
    ∧ handleLogin [] "admin@company.com" "admin123" none = none
    ∧ initialCurrentUser = none
    ∧ handleLogout (some ⟨"u1", "admin@company.com", "Admin", "User", "+370",
        .admin, "admin123"⟩) = none :=
  ⟨C8_login_credential_match.1 _ _ _,
   C8_login_credential_match.2.2.1 [] "admin@company.com" "admin123" none rfl,
   C8_login_credential_match.2.2.2.1,
   C8_login_credential_match.2.2.2.2 _⟩

/-- C10: a failed login attempt (no stored user matching both email and
password) leaves the session holder exactly as it was, whether absent or
present. -/
theorem C10_failed_login_preserves_session (users : List User)
    (email password : String) (session : Option User)
    (h : ∀ u ∈ users, ¬(u.email = email ∧ u.password = password)) :
    handleLogin users email password session = session := by
  have hfind : findCredentialUser users email password = none := by
    rw [findCredentialUser, List.find?_eq_none]
    intro u hu
    simp only [Bool.and_eq_true, beq_iff_eq, not_and]
    intro he hp
    exact h u hu ⟨he, hp⟩
  simp [handleLogin, hfind]

/-- C10 witness: logging in with a wrong password against the seeded admin
leaves a previously present session value exactly in place. -/
theorem C10_failed_login_preserves_session_witness :
    handleLogin [⟨"u1", "admin@company.com", "Admin", "User", "+370", .admin,
        "admin123"⟩] "admin@company.com" "wrongpw"
      (some ⟨"u2", "b@c", "B", "C", "+2", .manager, "pw"⟩)
    = some ⟨"u2", "b@c", "B", "C", "+2", .manager, "pw"⟩ :=
  C10_failed_login_preserves_session _ _ _ _ (by decide)

/-- C9: when editing an existing user, the minimum-length password check is
skipped, and the saved record keeps the old password when the password field
is empty and takes the new one when it is not. -/
theorem C9_edit_preserves_password (eu : User) (newId : String)
    (form : UserFormData)
    (hemail : form.email.data.any (fun c => c == '@') = true) :
    usersHandleSubmit (some eu) newId form
      = .ok { id := eu.id, email := form.email, name := form.name,
              surname := form.surname, phone := form.phone, role := form.role,
              password := if form.password == "" then eu.password
                          else form.password } := by
  simp [usersHandleSubmit, hemail]

/-- C9 witness: editing with an empty password field (shorter than the
6-character minimum) succeeds and keeps the stored password. -/
theorem C9_edit_preserves_password_witness :
    usersHandleSubmit
      (some ⟨"u1", "a@b", "A", "B", "+1", .employee, "oldpass"⟩) "fresh"
      ⟨"a@b", "A", "B", "+1", .employee, ""⟩
    = .ok ⟨"u1", "a@b", "A", "B", "+1", .employee, "oldpass"⟩ :=
  C9_edit_preserves_password _ "fresh" ⟨"a@b", "A", "B", "+1", .employee, ""⟩
    (by decide)

/-- `OrdersPage` form state: orderNumber, products, status, leftovers. -/
structure OrderFormData where
  orderNumber : String
  products : List OrderProduct
  status : OrderStatus
  leftovers : List Leftover
deriving DecidableEq, Repr

/-- The new-order branch of `OrdersPage.handleSubmit`: a fresh record whose
`totalCost` is `calculateOrderCost` evaluated against the catalogs loaded at
submission time, with `completedAt` set only when the status is completed. -/
def buildNewOrder (newId now : String) (form : OrderFormData)
    (products : List Product) (materials : List Material) : Order :=
  { id := newId, orderNumber := form.orderNumber, products := form.products,
    status := form.status,
    totalCost := calculateOrderCost form.products products materials,
    leftovers := form.leftovers, createdAt := now,
    completedAt := if form.status == .completed then some now else none }

/-- The editing branch of `OrdersPage.handleSubmit`:
`{ ...editingOrder, ...formData, totalCost, completedAt }`, where
`totalCost` is recomputed by `calculateOrderCost` at submission time. -/
def buildUpdatedOrder (editingOrder : Order) (now : String)
    (form : OrderFormData) (products : List Product)
    (materials : List Material) : Order :=
  { editingOrder with
    orderNumber := form.orderNumber, products := form.products,
    status := form.status, leftovers := form.leftovers,
    totalCost := calculateOrderCost form.products products materials,
    completedAt := if form.status == .completed then some now
                   else editingOrder.completedAt }

/-- The order card in `OrdersPage` displays `order.totalCost.toFixed(2)`:
the page holds the current `products` and `materials` state, but the
displayed total reads only the stored field. -/
def displayedOrderTotalCost (o : Order) (_products : List Product)
    (_materials : List Material) : ℚ :=
  o.totalCost

/-- `Dashboard.totalRevenue`: the completed orders' stored `totalCost`
fields, summed. -/
def totalRevenue (orders : List Order) : ℚ :=
  (orders.filter (fun o => o.status == .completed)).foldl
    (fun sum o => sum + o.totalCost) 0

/-- The Dashboard loads orders, materials and products, but its Total
Revenue statistic is computed from the orders alone. -/
def dashboardTotalRevenue (orders : List Order) (_materials : List Material)
    (_products : List Product) : ℚ :=
  totalRevenue orders

/-- C4: an order's stored `totalCost` is a snapshot taken by
`calculateOrderCost` at creation or update time; the read paths (order card
display, dashboard revenue) consume only the stored field, so replacing the
product or material catalogs after the write changes neither the displayed
total of a stored order nor the dashboard revenue. -/
theorem C4_totalCost_snapshot_semantics :
    (∀ (newId now : String) (form : OrderFormData) (products : List Product)
        (materials : List Material),
      (buildNewOrder newId now form products materials).totalCost
        = calculateOrderCost form.products products materials)
    ∧ (∀ (editingOrder : Order) (now : String) (form : OrderFormData)
        (products : List Product) (materials : List Material),
      (buildUpdatedOrder editingOrder now form products materials).totalCost
        = calculateOrderCost form.products products materials)
    ∧ (∀ (o : Order) (products products' : List Product)
        (materials materials' : List Material),
      displayedOrderTotalCost o products materials
        = displayedOrderTotalCost o products' materials')
    ∧ (∀ (newId now : String) (form : OrderFormData)
        (products products' : List Product)
        (materials materials' : List Material),
      displayedOrderTotalCost (buildNewOrder newId now form products materials)
          products' materials'
        = calculateOrderCost form.products products materials)
    ∧ (∀ (orders : List Order) (materials materials' : List Material)
        (products products' : List Product),
      dashboardTotalRevenue orders materials products
        = dashboardTotalRevenue orders materials' products') :=
  ⟨fun _ _ _ _ _ => rfl, fun _ _ _ _ _ => rfl, fun _ _ _ _ _ => rfl,
   fun _ _ _ _ _ _ _ => rfl, fun _ _ _ _ _ => rfl⟩
